import Mathlib

/-!
Verification of the quantum_trade_bot trading core.

Shallow embedding of the risk-management, trade-execution and
market-regime logic of the repository. Python floats are modelled as
exact rationals (ℚ); the ambient clock (datetime.now()) is made an
explicit `now` parameter (in seconds, matching `total_seconds()`);
exceptions are modelled with `Except` where a function catches them.
The venue collaborator (ccxt exchange) is modelled as an oracle record
whose fields say how each external call would respond.
-/

namespace QuantumTradeBot

/-! ## risk_manager.py -/

/-- Risk-metric aggregate mirroring `RiskManagementSystem.risk_metrics`.
The `sharpe_ratio`/`sortino_ratio` entries are omitted: their value needs a
real-valued standard deviation (square root) and no claim depends on them. -/
structure RiskMetrics where
  total_trades : ℕ
  winning_trades : ℕ
  losing_trades : ℕ
  max_drawdown : ℚ
  max_drawdown_percent : ℚ
  deriving DecidableEq, Repr

/-- Trade-result record built by `TradeExecutor._create_trade_result`
(the opaque `order_details` ack is omitted; `timestamp` is seconds). -/
structure TradeResult where
  symbol : String
  side : String
  quantity : ℚ
  entry_price : ℚ
  timestamp : ℚ
  profit_loss : ℚ
  deriving DecidableEq, Repr

/-- State of `RiskManagementSystem` (config fields inlined). -/
structure RiskManagementSystem where
  initial_capital : ℚ
  current_capital : ℚ
  max_risk_per_trade : ℚ
  trade_history : List TradeResult
  risk_metrics : RiskMetrics
  deriving DecidableEq, Repr

/-- `RiskManagementSystem.__init__`. -/
def mkRiskManagementSystem (initial_capital max_risk_per_trade : ℚ) :
    RiskManagementSystem :=
  { initial_capital := initial_capital
    current_capital := initial_capital
    max_risk_per_trade := max_risk_per_trade
    trade_history := []
    risk_metrics := ⟨0, 0, 0, 0, 0⟩ }

/-- Error raised inside the `try` block of `calculate_position_size`. -/
inductive SizingError where
  | divideByZero
  deriving DecidableEq, Repr

/-- Body of the `try` block of `RiskManagementSystem.calculate_position_size`:
risk amount, stop distance, size, capped at `current_capital / entry_price`.
A zero divisor raises (Python `ZeroDivisionError`). The `symbol` argument of
the Python method is only used for logging and is dropped. -/
def calculate_position_size_body (rm : RiskManagementSystem)
    (entry_price stop_loss_price : ℚ) : Except SizingError ℚ :=
  let risk_amount := rm.current_capital * rm.max_risk_per_trade
  let risk_per_unit := |entry_price - stop_loss_price|
  if risk_per_unit = 0 then .error .divideByZero
  else
    let position_size := risk_amount / risk_per_unit
    if entry_price = 0 then .error .divideByZero
    else
      let max_allowed_position := rm.current_capital / entry_price
      .ok (min position_size max_allowed_position)

/-- `RiskManagementSystem.calculate_position_size`: the surrounding
`try/except` catches any error, logs it and returns 0. -/
def calculate_position_size (rm : RiskManagementSystem)
    (entry_price stop_loss_price : ℚ) : ℚ :=
  match calculate_position_size_body rm entry_price stop_loss_price with
  | .ok v => v
  | .error _ => 0

/-- The `market_conditions` dict argument of `assess_trade_risk`:
`.get` with default 0.5 is modelled by optional fields. -/
structure MarketConditions where
  volatility : Option ℚ
  trend_strength : Option ℚ
  deriving DecidableEq, Repr

/-- Risk-assessment dict returned by `assess_trade_risk`. -/
structure RiskAssessment where
  executable : Bool
  risk_score : ℚ
  position_size_percent : ℚ
  recommended_stop_loss : ℚ
  deriving DecidableEq, Repr

/-- `RiskManagementSystem.assess_trade_risk`: risk score is the
`np.mean` of the three weighted components; `executable` is the strict
comparison with 0.6; the position-size percent is the clamp
`max(0.01, min(max_risk_per_trade, risk_score))`. -/
def assess_trade_risk (rm : RiskManagementSystem) (trade_signal : ℚ)
    (market_conditions : MarketConditions) : RiskAssessment :=
  let volatility := market_conditions.volatility.getD 0.5
  let trend_strength := market_conditions.trend_strength.getD 0.5
  let risk_components : List ℚ :=
    [|trade_signal| * 0.4, volatility * 0.3, (1 - trend_strength) * 0.3]
  let risk_score := risk_components.sum / 3
  { executable := decide (risk_score < 0.6)
    risk_score := risk_score
    position_size_percent := max 0.01 (min rm.max_risk_per_trade risk_score)
    recommended_stop_loss := 0 }

/-- Python `min` over a nonempty list (the empty case is never reached:
`_update_risk_metrics` guards on a nonempty history). -/
def listMin : List ℚ → ℚ
  | [] => 0
  | [x] => x
  | x :: y :: xs => min x (listMin (y :: xs))

/-- `RiskManagementSystem._update_risk_metrics`: recomputes the counts and
drawdown from the whole trade history; no-op on an empty history. -/
def update_risk_metrics (rm : RiskManagementSystem) : RiskManagementSystem :=
  if rm.trade_history = [] then rm
  else
    let profits := rm.trade_history.map (·.profit_loss)
    { rm with
      risk_metrics :=
        { total_trades := rm.trade_history.length
          winning_trades := profits.countP (fun p => decide (0 < p))
          losing_trades := profits.countP (fun p => decide (p ≤ 0))
          max_drawdown := listMin profits
          max_drawdown_percent := listMin profits / rm.initial_capital * 100 } }

/-- `RiskManagementSystem.update_capital_and_metrics`: add the trade's
profit/loss to the capital, append the trade to the history, recompute
the metrics. -/
def update_capital_and_metrics (rm : RiskManagementSystem)
    (trade_result : TradeResult) : RiskManagementSystem :=
  update_risk_metrics
    { rm with
      current_capital := rm.current_capital + trade_result.profit_loss
      trade_history := rm.trade_history ++ [trade_result] }

/-! ## trade_executor.py -/

/-- The `trade_limits` dict set in `TradeExecutor.__init__`:
`max_open_trades = 3`, `max_trade_duration_hours = 24`. -/
structure TradeLimits where
  max_open_trades : ℕ
  max_trade_duration_hours : ℚ
  deriving DecidableEq, Repr

/-- The hard-coded limits of `TradeExecutor.__init__`. -/
def trade_limits : TradeLimits := ⟨3, 24⟩

/-- `self.active_trades`: a Python dict symbol → trade, modelled as an
insertion-ordered association list. -/
abbrev ActiveTrades := List (String × TradeResult)

/-- Dict write `self.active_trades[symbol] = trade`. -/
def dictInsert (k : String) (v : TradeResult) (d : ActiveTrades) : ActiveTrades :=
  if (d.lookup k).isSome then
    d.map (fun p => if p.1 = k then (k, v) else p)
  else d ++ [(k, v)]

/-- State of `TradeExecutor` together with its owned `RiskManagementSystem`
(the performance monitor and the exchange connections are external
collaborators and carry no state the claims mention). -/
structure TradeExecutorState where
  active_trades : ActiveTrades
  risk_manager : RiskManagementSystem
  deriving DecidableEq, Repr

/-- `TradeExecutor._close_trade`: pops the symbol from `active_trades` and
logs a warning. The real closing logic is a TODO in the source: no exit
price or profit/loss is computed and the risk manager is not told. -/
def close_trade (symbol : String) (s : TradeExecutorState) : TradeExecutorState :=
  { s with active_trades := s.active_trades.filter (fun p => p.1 ≠ symbol) }

/-- The control flow of `TradeExecutor._can_open_new_trade` with the
clock read modelled as a working `now` parameter (seconds): reject when
the open-trade count has reached `max_open_trades`; otherwise, when the
symbol already has an open trade, force-close it and accept if its age
exceeds the duration limit (`total_seconds() / 3600` hours), else
reject; otherwise accept. Returns the verdict and the (possibly
mutated) state. NOTE: the source never imports `datetime`, so at
runtime the per-symbol branch raises NameError before the age check;
`can_open_new_trade_py` below models that faithful error semantics.
This intended-logic version over-approximates: it has every behaviour
of the runtime one plus the (dead) expiry force-close. -/
def can_open_new_trade (now : ℚ) (s : TradeExecutorState) (symbol : String) :
    Bool × TradeExecutorState :=
  if s.active_trades.length ≥ trade_limits.max_open_trades then (false, s)
  else
    match s.active_trades.lookup symbol with
    | some trade =>
      let trade_duration := (now - trade.timestamp) / 3600
      if trade_duration > trade_limits.max_trade_duration_hours then
        (true, close_trade symbol s)
      else (false, s)
    | none => (true, s)

/-- The record literal of `TradeExecutor._create_trade_result`: fresh
record with `profit_loss = 0` (to be computed when the trade is closed,
per the source comment). NOTE: at runtime the dict literal evaluates
`datetime.now()` with `datetime` unimported and raises NameError before
producing any record; `create_trade_result_py` below models that
faithful error semantics. -/
def create_trade_result (symbol side : String) (quantity price now : ℚ) :
    TradeResult :=
  { symbol := symbol
    side := side
    quantity := quantity
    entry_price := price
    timestamp := now
    profit_loss := 0 }

/-- Oracle for the venue collaborator during one `execute_trade` call:
whether an exchange instance exists for the symbol, how `fetch_ticker`
answers (`none` = raises), the free quote balance
(`_get_available_balance` catches its own errors and returns a number),
and whether `create_market_*_order` succeeds (`false` = raises). -/
structure VenueOracle where
  exchange_available : Bool
  ticker_price : Option ℚ
  balance : ℚ
  order_ok : Bool
  deriving DecidableEq, Repr

/-- Trade signal consumed by `execute_trade` (the fields it reads). -/
structure TradeSignal where
  symbol : String
  signal : ℚ
  risk_assessment : RiskAssessment
  deriving DecidableEq, Repr

/-- Result of one `execute_trade` call: the post state, the returned
value (`none` on any rejected/failed path), and whether `_place_order`
was invoked. -/
structure ExecOutcome where
  state : TradeExecutorState
  result : Option TradeResult
  order_attempted : Bool
  deriving DecidableEq, Repr

/-- `TradeExecutor.execute_trade` over the intended-logic admission
check and record creation, with the venue oracle standing in for the
ccxt exchange. Mirrors the source order: admission check, exchange
lookup, ticker fetch, executability check, balance and quantity, order
placement, then record keeping (active set, risk manager). Any raised
error is caught by the outer `except`, which returns `None`; state
mutations made before the raise (the expiry force-close inside the
admission check) are kept, exactly as in the source. A zero ticker price
raises on the quantity division and is likewise caught. NOTE: like its
two collaborators above, this version over-approximates the runtime
behaviour — the source's missing `datetime` import makes every
record-creation path raise; `execute_trade_py` below is the faithful
version. -/
def execute_trade (now : ℚ) (venue : VenueOracle) (trade_signal : TradeSignal)
    (s : TradeExecutorState) : ExecOutcome :=
  let checked := can_open_new_trade now s trade_signal.symbol
  let s₁ := checked.2
  if !checked.1 then ⟨s₁, none, false⟩
  else if !venue.exchange_available then ⟨s₁, none, false⟩
  else
    match venue.ticker_price with
    | none => ⟨s₁, none, false⟩
    | some current_price =>
      if !trade_signal.risk_assessment.executable then ⟨s₁, none, false⟩
      else if current_price = 0 then ⟨s₁, none, false⟩
      else
        let position_size :=
          trade_signal.risk_assessment.position_size_percent * venue.balance
        let quantity := position_size / current_price
        let side := if trade_signal.signal > 0 then "buy" else "sell"
        if !venue.order_ok then ⟨s₁, none, true⟩
        else
          let trade_result :=
            create_trade_result trade_signal.symbol side quantity current_price now
          ⟨{ active_trades := dictInsert trade_signal.symbol trade_result s₁.active_trades
             risk_manager := update_capital_and_metrics s₁.risk_manager trade_result },
           some trade_result, true⟩

/-- Executor states reachable from a fresh `TradeExecutor` (empty active
set, freshly initialised risk manager) by repeated `execute_trade` calls
with arbitrary clock, venue behaviour and signals. -/
inductive Reachable : TradeExecutorState → Prop where
  | init (initial_capital max_risk_per_trade : ℚ) :
      Reachable ⟨[], mkRiskManagementSystem initial_capital max_risk_per_trade⟩
  | step (now : ℚ) (venue : VenueOracle) (sig : TradeSignal)
      (s : TradeExecutorState) : Reachable s →
      Reachable (execute_trade now venue sig s).state

/-! ## Faithful runtime semantics of trade_executor.py

`trade_executor.py` imports only os, asyncio, logging, ccxt and typing:
`datetime` is never imported, yet `datetime.now()` is referenced at line
191 (the age check in `_can_open_new_trade`) and line 235 (the timestamp
field in `_create_trade_result`). Both references raise NameError at
runtime. The definitions below model that error path exactly. -/

/-- Python-level error raised when an unimported name is referenced. -/
inductive PyError where
  | nameError
  deriving DecidableEq, Repr

/-- Faithful `TradeExecutor._can_open_new_trade`: the open-trade-count
check runs first and needs no clock; when the symbol already has an open
trade, evaluating `datetime.now()` raises NameError (the import is
missing) before the age comparison, so the expiry force-close branch of
the source is unreachable dead code; a symbol with no open trade is
accepted. No state is ever mutated. -/
def can_open_new_trade_py (s : TradeExecutorState) (symbol : String) :
    Except PyError (Bool × TradeExecutorState) :=
  if s.active_trades.length ≥ trade_limits.max_open_trades then .ok (false, s)
  else
    match s.active_trades.lookup symbol with
    | some _ => .error .nameError
    | none => .ok (true, s)

/-- Faithful `TradeExecutor._create_trade_result`: building the result
dict evaluates `datetime.now()` for the timestamp field and raises
NameError, so no trade record is ever produced. -/
def create_trade_result_py (_symbol _side : String) (_quantity _price : ℚ) :
    Except PyError TradeResult :=
  .error .nameError

/-- Faithful `TradeExecutor.execute_trade`: the NameError raised by the
admission check (symbol already open) or by record creation (after a
successful order) is caught by the outer `except`, which returns `None`.
Consequently the record-keeping branch that would write the active set
and the risk manager is unreachable, and every call leaves the state
untouched. -/
def execute_trade_py (venue : VenueOracle) (trade_signal : TradeSignal)
    (s : TradeExecutorState) : ExecOutcome :=
  match can_open_new_trade_py s trade_signal.symbol with
  | .error _ => ⟨s, none, false⟩
  | .ok (can, s₁) =>
    if !can then ⟨s₁, none, false⟩
    else if !venue.exchange_available then ⟨s₁, none, false⟩
    else
      match venue.ticker_price with
      | none => ⟨s₁, none, false⟩
      | some current_price =>
        if !trade_signal.risk_assessment.executable then ⟨s₁, none, false⟩
        else if current_price = 0 then ⟨s₁, none, false⟩
        else if !venue.order_ok then ⟨s₁, none, true⟩
        else
          match create_trade_result_py trade_signal.symbol
              (if trade_signal.signal > 0 then "buy" else "sell")
              (trade_signal.risk_assessment.position_size_percent
                * venue.balance / current_price)
              current_price with
          | .error _ => ⟨s₁, none, true⟩
          | .ok tr =>
            ⟨{ active_trades := dictInsert trade_signal.symbol tr s₁.active_trades
               risk_manager := update_capital_and_metrics s₁.risk_manager tr },
             some tr, true⟩

/-! ## market_data_manager.py -/

/-- The regime-classification core of
`MarketDataManager.detect_market_regime` (the `if/elif` chain on the
averaged volatility and trend indicators), returning the regime name and
its confidence. -/
def detect_market_regime_core (avg_volatility avg_trend : ℚ) : String × ℚ :=
  if avg_volatility > 3 ∧ |avg_trend - 50| > 10 then
    ("volatile", min 1 (avg_volatility / 5))
  else if avg_trend > 60 then ("bullish", (avg_trend - 50) / 50)
  else if avg_trend < 40 then ("bearish", (50 - avg_trend) / 50)
  else ("neutral", 0.5)

/-! ## Concrete scenario data -/

/-- An open trade on symbol "S" entered at time 0 (seconds). -/
def tradeS : TradeResult := ⟨"S", "buy", 1, 100, 0, 0⟩

/-- An open trade on symbol "A" entered at time 0. -/
def tradeA : TradeResult := ⟨"A", "buy", 1, 100, 0, 0⟩

/-- An open trade on symbol "B" entered at time 0. -/
def tradeB : TradeResult := ⟨"B", "buy", 1, 100, 0, 0⟩

/-- Executor state with three open trades (the limit), the one on "S"
opened at time 0. -/
def fullState : TradeExecutorState :=
  ⟨[("S", tradeS), ("A", tradeA), ("B", tradeB)],
   mkRiskManagementSystem 10000 0.01⟩

/-- Executor state with a single open trade on "S" opened at time 0. -/
def oneTradeState : TradeExecutorState :=
  ⟨[("S", tradeS)], mkRiskManagementSystem 10000 0.01⟩

/-- An executable trade signal on the given symbol. -/
def sampleSignal (symbol : String) : TradeSignal :=
  ⟨symbol, 1, ⟨true, 0.3, 0.01, 0⟩⟩

/-! ## Theorems -/

/-- Claim C1: for every capital C > 0, nonnegative risk fraction, entry
e > 0 and stop s ≠ e, `calculate_position_size` returns a size with
0 ≤ size and size × e ≤ C (the raw risk-based size is capped at C / e);
and on entry 100, stop 98, capital 10000, max risk 0.01 the size is
exactly 50. -/
theorem C1_position_size_bounded (C r e s : ℚ) (hC : 0 < C) (hr : 0 ≤ r)
    (he : 0 < e) (hs : s ≠ e) :
    0 ≤ calculate_position_size (mkRiskManagementSystem C r) e s ∧
    calculate_position_size (mkRiskManagementSystem C r) e s * e ≤ C ∧
    calculate_position_size (mkRiskManagementSystem 10000 0.01) 100 98 = 50 := by
  have hes : |e - s| ≠ 0 := abs_ne_zero.mpr (sub_ne_zero.mpr (Ne.symm hs))
  have hbody : calculate_position_size_body (mkRiskManagementSystem C r) e s
      = .ok (min (C * r / |e - s|) (C / e)) := by
    simp [calculate_position_size_body, mkRiskManagementSystem, hes, he.ne']
  have hval : calculate_position_size (mkRiskManagementSystem C r) e s
      = min (C * r / |e - s|) (C / e) := by
    simp [calculate_position_size, hbody]
  refine ⟨?_, ?_, ?_⟩
  · rw [hval]
    exact le_min (div_nonneg (mul_nonneg hC.le hr) (abs_nonneg _))
      (div_nonneg hC.le he.le)
  · rw [hval]
    calc min (C * r / |e - s|) (C / e) * e ≤ C / e * e :=
          mul_le_mul_of_nonneg_right (min_le_right _ _) he.le
      _ = C := div_mul_cancel₀ C he.ne'
  · have h2 : |(100 : ℚ) - 98| = 2 := by
      rw [show (100 : ℚ) - 98 = 2 by norm_num]
      exact abs_of_nonneg (by norm_num)
    norm_num [calculate_position_size, calculate_position_size_body,
      mkRiskManagementSystem, h2, min_def]

/-- Claim C1 witness: the bounds at capital 10000, risk 0.01, entry 100,
stop 98. -/
theorem C1_position_size_bounded_witness :
    0 ≤ calculate_position_size (mkRiskManagementSystem 10000 0.01) 100 98 ∧
    calculate_position_size (mkRiskManagementSystem 10000 0.01) 100 98 * 100 ≤ 10000 ∧
    calculate_position_size (mkRiskManagementSystem 10000 0.01) 100 98 = 50 :=
  C1_position_size_bounded 10000 0.01 100 98 (by norm_num) (by norm_num)
    (by norm_num) (by norm_num)

/-- Claim C4 counterexample: with direction 0, volatility 20 ≥ 0 and
trend strength 1 ∈ [0,1], the risk score exceeds 1, so the claimed bound
`risk_score ∈ [0,1]` fails for unbounded volatility. -/
theorem C4_counterexample :
    (0 : ℚ) ≤ 20 ∧ (0 : ℚ) ≤ 1 ∧ (1 : ℚ) ≤ 1 ∧
    1 < (assess_trade_risk (mkRiskManagementSystem 10000 0.01) 0
          ⟨some 20, some 1⟩).risk_score := by
  refine ⟨by norm_num, by norm_num, le_refl 1, ?_⟩
  norm_num [assess_trade_risk, mkRiskManagementSystem]

/-- Claim C4 (amended): for every direction, volatility ≥ 0 and trend
strength in [0,1], the risk score is the arithmetic mean of
|direction| × 0.4, volatility × 0.3 and (1 − trend_strength) × 0.3, and
`executable` holds iff risk_score < 0.6; the bound risk_score ∈ [0,1]
additionally needs |direction| ≤ 1 and volatility ≤ 1. -/
theorem C4_risk_score_mean (rm : RiskManagementSystem) (d v t : ℚ)
    (hv : 0 ≤ v) (ht0 : 0 ≤ t) (ht1 : t ≤ 1) :
    (assess_trade_risk rm d ⟨some v, some t⟩).risk_score
        = (|d| * 0.4 + v * 0.3 + (1 - t) * 0.3) / 3 ∧
    ((assess_trade_risk rm d ⟨some v, some t⟩).executable = true ↔
      (assess_trade_risk rm d ⟨some v, some t⟩).risk_score < 0.6) ∧
    (|d| ≤ 1 → v ≤ 1 →
      0 ≤ (assess_trade_risk rm d ⟨some v, some t⟩).risk_score ∧
      (assess_trade_risk rm d ⟨some v, some t⟩).risk_score ≤ 1) := by
  have hscore : (assess_trade_risk rm d ⟨some v, some t⟩).risk_score
      = (|d| * 0.4 + v * 0.3 + (1 - t) * 0.3) / 3 := by
    simp [assess_trade_risk]
    ring
  refine ⟨hscore, ?_, ?_⟩
  · simp [assess_trade_risk]
  · intro hd hv1
    rw [hscore]
    have h0 : 0 ≤ |d| := abs_nonneg d
    constructor
    · nlinarith
    · nlinarith

/-- Claim C4 witness: the amended statement at direction 1, volatility
0.5 and trend strength 0.5. -/
theorem C4_risk_score_mean_witness :
    (assess_trade_risk (mkRiskManagementSystem 10000 0.01) 1
          ⟨some 0.5, some 0.5⟩).risk_score
        = (|(1 : ℚ)| * 0.4 + 0.5 * 0.3 + (1 - 0.5) * 0.3) / 3 ∧
    ((assess_trade_risk (mkRiskManagementSystem 10000 0.01) 1
          ⟨some 0.5, some 0.5⟩).executable = true ↔
      (assess_trade_risk (mkRiskManagementSystem 10000 0.01) 1
          ⟨some 0.5, some 0.5⟩).risk_score < 0.6) ∧
    (|(1 : ℚ)| ≤ 1 → (0.5 : ℚ) ≤ 1 →
      0 ≤ (assess_trade_risk (mkRiskManagementSystem 10000 0.01) 1
            ⟨some 0.5, some 0.5⟩).risk_score ∧
      (assess_trade_risk (mkRiskManagementSystem 10000 0.01) 1
            ⟨some 0.5, some 0.5⟩).risk_score ≤ 1) :=
  C4_risk_score_mean (mkRiskManagementSystem 10000 0.01) 1 0.5 0.5
    (by norm_num) (by norm_num) (by norm_num)

/-- Claim C5 counterexample: at entry = stop = 100 the division by zero
arises inside the try-block, but the public `calculate_position_size`
catches it and returns the numeric value 0 to the caller — it does not
fail fast. -/
theorem C5_counterexample :
    calculate_position_size_body (mkRiskManagementSystem 10000 0.01) 100 100
        = .error .divideByZero ∧
    calculate_position_size (mkRiskManagementSystem 10000 0.01) 100 100 = 0 := by
  have h : |(100 : ℚ) - 100| = 0 := by simp
  refine ⟨?_, ?_⟩ <;>
    simp [calculate_position_size, calculate_position_size_body, h]

/-- Claim C5 (amended): when entry equals stop, the sizing body raises a
divide-by-zero error, and the surrounding handler catches it, logs, and
returns 0 — the caller always receives the numeric fallback 0 rather
than a propagated failure. -/
theorem C5_zero_stop_distance_caught (rm : RiskManagementSystem) (e : ℚ) :
    calculate_position_size_body rm e e = .error .divideByZero ∧
    calculate_position_size rm e e = 0 := by
  have h : |e - e| = 0 := by simp
  refine ⟨?_, ?_⟩ <;>
    simp [calculate_position_size, calculate_position_size_body, h]

/-- Claim C9: whenever avg_volatility > 3 and |avg_trend − 50| > 10 the
regime is volatile with confidence min(1, avg_volatility/5) — the first
rule wins even when avg_trend is also bullish (> 60) or bearish (< 40) —
and in particular avg_volatility = 4, avg_trend = 65 gives
(volatile, 0.8). -/
theorem C9_volatile_priority (avgVol avgTrend : ℚ)
    (h1 : avgVol > 3) (h2 : |avgTrend - 50| > 10) :
    detect_market_regime_core avgVol avgTrend
        = ("volatile", min 1 (avgVol / 5)) ∧
    detect_market_regime_core 4 65 = ("volatile", 0.8) := by
  have h15 : |(65 : ℚ) - 50| = 15 := by
    rw [show (65 : ℚ) - 50 = 15 by norm_num]
    exact abs_of_nonneg (by norm_num)
  refine ⟨?_, ?_⟩
  · simp [detect_market_regime_core, h1, h2]
  · norm_num [detect_market_regime_core, h15, min_def]

/-- Claim C9 witness: the volatile rule at avg_volatility 4 and
avg_trend 65, where the bullish condition 65 > 60 also holds. -/
theorem C9_volatile_priority_witness :
    detect_market_regime_core 4 65 = ("volatile", min 1 ((4 : ℚ) / 5)) ∧
    detect_market_regime_core 4 65 = ("volatile", 0.8) :=
  C9_volatile_priority 4 65 (by norm_num) (by norm_num)

/-- Recomputing the metrics never touches the capital. -/
theorem update_risk_metrics_capital (rm : RiskManagementSystem) :
    (update_risk_metrics rm).current_capital = rm.current_capital := by
  unfold update_risk_metrics
  split <;> rfl

/-- Folding the capital update over a trade list adds the sum of the
profits and losses. -/
theorem capital_after_fold (rm : RiskManagementSystem) (ts : List TradeResult) :
    (ts.foldl update_capital_and_metrics rm).current_capital
      = rm.current_capital + (ts.map TradeResult.profit_loss).sum := by
  induction ts generalizing rm with
  | nil => simp
  | cons t ts ih =>
    rw [List.foldl_cons, ih]
    simp [update_capital_and_metrics, update_risk_metrics_capital]
    ring

/-- Claim C6: for every initial capital and recorded trade sequence, the
capital after folding `update_capital_and_metrics` over the sequence is
the initial capital plus the sum of the profit/loss values, and any
permutation of the sequence ends at the same capital. -/
theorem C6_capital_is_ordered_sum (initial max_risk : ℚ)
    (ts us : List TradeResult) (hperm : ts.Perm us) :
    (ts.foldl update_capital_and_metrics
        (mkRiskManagementSystem initial max_risk)).current_capital
      = initial + (ts.map TradeResult.profit_loss).sum ∧
    (us.foldl update_capital_and_metrics
        (mkRiskManagementSystem initial max_risk)).current_capital
      = (ts.foldl update_capital_and_metrics
        (mkRiskManagementSystem initial max_risk)).current_capital := by
  have h1 := capital_after_fold (mkRiskManagementSystem initial max_risk) ts
  have h2 := capital_after_fold (mkRiskManagementSystem initial max_risk) us
  have hsum : (us.map TradeResult.profit_loss).sum
      = (ts.map TradeResult.profit_loss).sum :=
    ((hperm.map TradeResult.profit_loss).sum_eq).symm
  exact ⟨h1, by rw [h1, h2, hsum]⟩

/-- Claim C6 witness: two trades of +50 and −30 from capital 10000 end
at 10020 in either order. -/
theorem C6_capital_is_ordered_sum_witness :
    (([⟨"BTC/EUR", "buy", 1, 100, 0, 50⟩, ⟨"ETH/EUR", "sell", 2, 50, 0, -30⟩] :
        List TradeResult).foldl update_capital_and_metrics
        (mkRiskManagementSystem 10000 0.01)).current_capital
      = 10000 + (([⟨"BTC/EUR", "buy", 1, 100, 0, 50⟩,
          ⟨"ETH/EUR", "sell", 2, 50, 0, -30⟩] :
          List TradeResult).map TradeResult.profit_loss).sum ∧
    (([⟨"ETH/EUR", "sell", 2, 50, 0, -30⟩, ⟨"BTC/EUR", "buy", 1, 100, 0, 50⟩] :
        List TradeResult).foldl update_capital_and_metrics
        (mkRiskManagementSystem 10000 0.01)).current_capital
      = (([⟨"BTC/EUR", "buy", 1, 100, 0, 50⟩, ⟨"ETH/EUR", "sell", 2, 50, 0, -30⟩] :
          List TradeResult).foldl update_capital_and_metrics
          (mkRiskManagementSystem 10000 0.01)).current_capital :=
  C6_capital_is_ordered_sum 10000 0.01
    [⟨"BTC/EUR", "buy", 1, 100, 0, 50⟩, ⟨"ETH/EUR", "sell", 2, 50, 0, -30⟩]
    [⟨"ETH/EUR", "sell", 2, 50, 0, -30⟩, ⟨"BTC/EUR", "buy", 1, 100, 0, 50⟩]
    (List.Perm.swap (⟨"ETH/EUR", "sell", 2, 50, 0, -30⟩ : TradeResult)
      (⟨"BTC/EUR", "buy", 1, 100, 0, 50⟩ : TradeResult) [])

/-- The admission check raises NameError whenever the symbol already has
an open trade and the count limit has not fired: the unimported
`datetime` is referenced before the age comparison. -/
theorem can_open_py_raises (s : TradeExecutorState) (symbol : String)
    (t : TradeResult)
    (hlen : s.active_trades.length < trade_limits.max_open_trades)
    (hl : s.active_trades.lookup symbol = some t) :
    can_open_new_trade_py s symbol = .error .nameError := by
  have hge : ¬ (s.active_trades.length ≥ trade_limits.max_open_trades) :=
    not_le.mpr hlen
  simp [can_open_new_trade_py, hge, hl]

/-- Under the faithful runtime semantics every `execute_trade` call
returns None and leaves the executor state untouched: every path either
rejects, fails at a venue call, or raises NameError when building the
trade record. -/
theorem execute_trade_py_noop (venue : VenueOracle) (sig : TradeSignal)
    (s : TradeExecutorState) :
    (execute_trade_py venue sig s).result = none ∧
    (execute_trade_py venue sig s).state = s := by
  by_cases hge : s.active_trades.length ≥ trade_limits.max_open_trades
  · simp [execute_trade_py, can_open_new_trade_py, hge]
  · cases hl : s.active_trades.lookup sig.symbol with
    | some t => simp [execute_trade_py, can_open_new_trade_py, hge, hl]
    | none =>
      simp only [execute_trade_py, can_open_new_trade_py, if_neg hge, hl]
      split
      · exact ⟨rfl, rfl⟩
      · split
        · exact ⟨rfl, rfl⟩
        · split
          · exact ⟨rfl, rfl⟩
          · split
            · exact ⟨rfl, rfl⟩
            · split
              · exact ⟨rfl, rfl⟩
              · simp [create_trade_result_py]

/-- Claim C10 describes the source's evident intent — the record literal
in `_create_trade_result` hard-codes `profit_loss = 0` and
`execute_trade` then calls the capital-and-metrics update — but the code
slips earlier: building the record evaluates `datetime.now()` with
`datetime` unimported and raises NameError, caught by the outer
`except`. So no TradeRecord is ever created at execution time, nothing
is appended to the history, and the open-time update never runs: every
`execute_trade` call returns None with the state unchanged. -/
theorem C10_record_creation_raises (sym side : String) (q p now : ℚ)
    (venue : VenueOracle) (sig : TradeSignal) (s : TradeExecutorState) :
    create_trade_result_py sym side q p = .error .nameError ∧
    (create_trade_result sym side q p now).profit_loss = 0 ∧
    (execute_trade_py venue sig s).result = none ∧
    (execute_trade_py venue sig s).state = s :=
  ⟨rfl, rfl, (execute_trade_py_noop venue sig s).1,
   (execute_trade_py_noop venue sig s).2⟩

/-- Filtering a symbol out of the active-trade dict makes its lookup
fail. -/
theorem lookup_filter_ne (d : ActiveTrades) (k : String) :
    (d.filter (fun p => p.1 ≠ k)).lookup k = none := by
  induction d with
  | nil => rfl
  | cons p d ih =>
    by_cases h : p.1 = k
    · simp [List.filter_cons, h]
      exact fun a b _ hak hka => hak hka.symm
    · simp [List.filter_cons, h]
      exact ⟨fun hk => h hk.symm, fun a b _ hak hka => hak hka.symm⟩

/-- The admission check never touches the risk manager. -/
theorem can_open_rm (now : ℚ) (s : TradeExecutorState) (symbol : String) :
    (can_open_new_trade now s symbol).2.risk_manager = s.risk_manager := by
  simp only [can_open_new_trade]
  split
  · rfl
  · split
    · split
      · rfl
      · rfl
    · rfl

/-- The admission check only ever removes trades from the active set. -/
theorem can_open_subset (now : ℚ) (s : TradeExecutorState) (symbol : String) :
    ∀ p ∈ (can_open_new_trade now s symbol).2.active_trades,
      p ∈ s.active_trades := by
  simp only [can_open_new_trade]
  split
  · exact fun p hp => hp
  · split
    · split
      · exact fun p hp => List.mem_of_mem_filter hp
      · exact fun p hp => hp
    · exact fun p hp => hp

/-- The admission check never grows the active set. -/
theorem can_open_length_le (now : ℚ) (s : TradeExecutorState) (symbol : String) :
    (can_open_new_trade now s symbol).2.active_trades.length
      ≤ s.active_trades.length := by
  simp only [can_open_new_trade]
  split
  · exact le_refl _
  · split
    · split
      · exact List.length_filter_le _ _
      · exact le_refl _
    · exact le_refl _

/-- An accepting admission check leaves at most two open trades and no
trade on the admitted symbol. -/
theorem can_open_true_spec (now : ℚ) (s : TradeExecutorState) (symbol : String)
    (h : (can_open_new_trade now s symbol).1 = true) :
    (can_open_new_trade now s symbol).2.active_trades.length ≤ 2 ∧
    (can_open_new_trade now s symbol).2.active_trades.lookup symbol = none := by
  simp only [can_open_new_trade] at h ⊢
  by_cases hlen : s.active_trades.length ≥ trade_limits.max_open_trades
  · simp [hlen] at h
  · have hlen2 : s.active_trades.length ≤ 2 := by
      simp [trade_limits] at hlen
      omega
    simp only [if_neg hlen] at h ⊢
    cases hl : s.active_trades.lookup symbol with
    | some trade =>
      simp only [hl] at h ⊢
      by_cases hdur : (now - trade.timestamp) / 3600
          > trade_limits.max_trade_duration_hours
      · simp only [if_pos hdur, close_trade]
        exact ⟨le_trans (List.length_filter_le _ _) hlen2, lookup_filter_ne _ _⟩
      · simp [hdur] at h
    | none =>
      simp only [hl] at h ⊢
      exact ⟨hlen2, trivial⟩

/-- Writing a fresh symbol into the active-trade dict grows it by one. -/
theorem dictInsert_length_of_lookup_none (k : String) (v : TradeResult)
    (d : ActiveTrades) (h : d.lookup k = none) :
    (dictInsert k v d).length = d.length + 1 := by
  simp [dictInsert, h]

/-- `execute_trade` either stops at the state left by the admission
check, or (only when the check accepted) additionally writes one new
trade record for the signal's symbol. -/
theorem execute_trade_state_eq (now : ℚ) (venue : VenueOracle)
    (sig : TradeSignal) (s : TradeExecutorState) :
    (execute_trade now venue sig s).state
        = (can_open_new_trade now s sig.symbol).2 ∨
    ((can_open_new_trade now s sig.symbol).1 = true ∧
     ∃ tr, (execute_trade now venue sig s).state.active_trades
        = dictInsert sig.symbol tr
            (can_open_new_trade now s sig.symbol).2.active_trades) := by
  simp only [execute_trade]
  split
  · left; rfl
  next hcan =>
    have hcan' : (can_open_new_trade now s sig.symbol).1 = true := by
      simpa using hcan
    split
    · left; rfl
    · split
      · left; rfl
      · split
        · left; rfl
        · split
          · left; rfl
          · split
            · left; rfl
            · right
              exact ⟨hcan', _, rfl⟩

/-- When order placement raises, `execute_trade` ends in the state left
by the admission check and returns `None`. -/
theorem execute_trade_order_fail (now : ℚ) (venue : VenueOracle)
    (sig : TradeSignal) (s : TradeExecutorState)
    (h : venue.order_ok = false) :
    (execute_trade now venue sig s).state
        = (can_open_new_trade now s sig.symbol).2 ∧
    (execute_trade now venue sig s).result = none := by
  simp only [execute_trade, h, Bool.not_false]
  split
  · exact ⟨rfl, rfl⟩
  · split
    · exact ⟨rfl, rfl⟩
    · split
      · exact ⟨rfl, rfl⟩
      · split
        · exact ⟨rfl, rfl⟩
        · split
          · exact ⟨rfl, rfl⟩
          · simp

/-- One `execute_trade` call preserves the three-open-trades bound. -/
theorem execute_trade_length_le (now : ℚ) (venue : VenueOracle)
    (sig : TradeSignal) (s : TradeExecutorState)
    (h : s.active_trades.length ≤ 3) :
    (execute_trade now venue sig s).state.active_trades.length ≤ 3 := by
  rcases execute_trade_state_eq now venue sig s with heq | ⟨hcan, tr, heq⟩
  · rw [heq]
    exact le_trans (can_open_length_le _ _ _) h
  · rw [heq]
    obtain ⟨hl2, hnone⟩ := can_open_true_spec _ _ _ hcan
    rw [dictInsert_length_of_lookup_none _ _ _ hnone]
    omega

/-- Every reachable executor state has at most three open trades. -/
theorem reachable_length_le (t : TradeExecutorState) (h : Reachable t) :
    t.active_trades.length ≤ 3 := by
  induction h with
  | init ic mr => simp
  | step now venue sig s hs ih => exact execute_trade_length_le now venue sig s ih

/-- Claim C2: while three trades are open, the admission check for a
fourth proposed trade on a distinct symbol returns false and
`execute_trade` returns None without placing any order or changing the
state; moreover no reachable state ever has more than three open
trades. -/
theorem C2_admission_limit (now : ℚ) (venue : VenueOracle) (sig : TradeSignal)
    (s : TradeExecutorState)
    (hlen : s.active_trades.length = 3)
    (hdistinct : s.active_trades.lookup sig.symbol = none) :
    (can_open_new_trade now s sig.symbol).1 = false ∧
    execute_trade now venue sig s = ⟨s, none, false⟩ ∧
    ∀ t : TradeExecutorState, Reachable t → t.active_trades.length ≤ 3 := by
  have hc : can_open_new_trade now s sig.symbol = (false, s) := by
    simp [can_open_new_trade, hlen, trade_limits]
  refine ⟨by rw [hc], ?_, fun t ht => reachable_length_le t ht⟩
  simp [execute_trade, hc]

/-- Claim C2 witness: a fourth trade on symbol "D" while "S", "A", "B"
are open is rejected with no order placed. -/
theorem C2_admission_limit_witness :
    (can_open_new_trade 0 fullState "D").1 = false ∧
    execute_trade 0 ⟨true, some 100, 1000, true⟩ (sampleSignal "D") fullState
        = ⟨fullState, none, false⟩ ∧
    ∀ t : TradeExecutorState, Reachable t → t.active_trades.length ≤ 3 :=
  C2_admission_limit 0 ⟨true, some 100, 1000, true⟩ (sampleSignal "D") fullState
    (by rfl) (by rfl)

/-- Claim C3 describes the expiry logic written at lines 194–197 of the
source (and in the spec), but the code cannot reach it: with fewer than
max_open_trades trades open, an admission check for a symbol that
already has an open trade — however old — raises NameError at the
unimported `datetime` before the age comparison, `execute_trade`'s
outer `except` turns that into None, and the expired trade is neither
transitioned out of the open set nor is the new proposal admitted. The
hypothesis `hexp` pins the failing input as a genuinely expired trade
(over 24 h old); the code raises before ever reading the clock. -/
theorem C3_expiry_check_raises (now : ℚ) (s : TradeExecutorState)
    (symbol : String) (t : TradeResult) (venue : VenueOracle)
    (sig : TradeSignal)
    (hlen : s.active_trades.length < trade_limits.max_open_trades)
    (hl : s.active_trades.lookup symbol = some t)
    (hexp : (now - t.timestamp) / 3600 > trade_limits.max_trade_duration_hours)
    (hsym : sig.symbol = symbol) :
    can_open_new_trade_py s symbol = .error .nameError ∧
    execute_trade_py venue sig s = ⟨s, none, false⟩ ∧
    s.active_trades.lookup symbol = some t := by
  have herr := can_open_py_raises s symbol t hlen hl
  refine ⟨herr, ?_, hl⟩
  simp [execute_trade_py, hsym, herr]

/-- Claim C3 witness: the single open trade on "S" is 25 h old (limit
24 h), yet the admission check for "S" raises and the trade stays. -/
theorem C3_expiry_check_raises_witness :
    can_open_new_trade_py oneTradeState "S" = .error .nameError ∧
    execute_trade_py ⟨true, some 100, 1000, true⟩ (sampleSignal "S")
        oneTradeState = ⟨oneTradeState, none, false⟩ ∧
    oneTradeState.active_trades.lookup "S" = some tradeS :=
  C3_expiry_check_raises 90001 oneTradeState "S" tradeS
    ⟨true, some 100, 1000, true⟩ (sampleSignal "S") (by decide) (by rfl)
    (by norm_num [tradeS, trade_limits]) (by rfl)

/-- Claim C7: every recorded trade updates the capital by exactly its
profit/loss, and a forced-expiry close whose profit/loss was never
computed is indeed treated as an error condition rather than a silent
zero or a silent drop: the attempt raises NameError at the unimported
`datetime` (logged at error level by `execute_trade`'s handler), the
risk manager — capital, history, metrics — is untouched (so no zero was
recorded), and the expired trade remains in the open set (so nothing
was dropped from the tracker). -/
theorem C7_uncomputed_close_is_error (rm : RiskManagementSystem)
    (tr : TradeResult) (s : TradeExecutorState) (symbol : String)
    (t : TradeResult) (venue : VenueOracle) (sig : TradeSignal)
    (hlen : s.active_trades.length < trade_limits.max_open_trades)
    (hl : s.active_trades.lookup symbol = some t)
    (hsym : sig.symbol = symbol) :
    (update_capital_and_metrics rm tr).current_capital
        = rm.current_capital + tr.profit_loss ∧
    can_open_new_trade_py s symbol = .error .nameError ∧
    (execute_trade_py venue sig s).state.risk_manager = s.risk_manager ∧
    (execute_trade_py venue sig s).state.active_trades.lookup symbol
        = some t := by
  have herr := can_open_py_raises s symbol t hlen hl
  have hexec : execute_trade_py venue sig s = ⟨s, none, false⟩ := by
    simp [execute_trade_py, hsym, herr]
  refine ⟨?_, herr, ?_, ?_⟩
  · simp [update_capital_and_metrics, update_risk_metrics_capital]
  · rw [hexec]
  · rw [hexec]; exact hl

/-- Claim C7 witness: recording a +50 trade adds exactly 50 to the
capital, and the forced-expiry attempt on "S" errors with the tracker
untouched and the trade retained. -/
theorem C7_uncomputed_close_is_error_witness :
    (update_capital_and_metrics (mkRiskManagementSystem 10000 0.01)
        ⟨"BTC/EUR", "buy", 1, 100, 0, 50⟩).current_capital
      = (mkRiskManagementSystem 10000 0.01).current_capital
        + (⟨"BTC/EUR", "buy", 1, 100, 0, 50⟩ : TradeResult).profit_loss ∧
    can_open_new_trade_py oneTradeState "S" = .error .nameError ∧
    (execute_trade_py ⟨true, some 100, 1000, false⟩ (sampleSignal "S")
        oneTradeState).state.risk_manager = oneTradeState.risk_manager ∧
    (execute_trade_py ⟨true, some 100, 1000, false⟩ (sampleSignal "S")
        oneTradeState).state.active_trades.lookup "S" = some tradeS :=
  C7_uncomputed_close_is_error (mkRiskManagementSystem 10000 0.01)
    ⟨"BTC/EUR", "buy", 1, 100, 0, 50⟩ oneTradeState "S" tradeS
    ⟨true, some 100, 1000, false⟩ (sampleSignal "S") (by decide) (by rfl)
    (by rfl)

/-- Claim C8: when the order-placement collaborator fails,
`execute_trade` returns None, the risk manager (capital, trade history,
metrics) is exactly as before, and no new trade record is retained in
the active set (every retained record was already there). -/
theorem C8_order_failure_atomic (now : ℚ) (venue : VenueOracle)
    (sig : TradeSignal) (s : TradeExecutorState)
    (hfail : venue.order_ok = false) :
    (execute_trade now venue sig s).result = none ∧
    (execute_trade now venue sig s).state.risk_manager = s.risk_manager ∧
    ∀ p ∈ (execute_trade now venue sig s).state.active_trades,
      p ∈ s.active_trades := by
  obtain ⟨hstate, hres⟩ := execute_trade_order_fail now venue sig s hfail
  refine ⟨hres, ?_, ?_⟩
  · rw [hstate]; exact can_open_rm _ _ _
  · rw [hstate]; exact can_open_subset _ _ _

/-- Claim C8 witness: a failing order on symbol "D" from a one-trade
state aborts with the risk manager untouched. -/
theorem C8_order_failure_atomic_witness :
    (execute_trade 0 ⟨true, some 100, 1000, false⟩ (sampleSignal "D")
        oneTradeState).result = none ∧
    (execute_trade 0 ⟨true, some 100, 1000, false⟩ (sampleSignal "D")
        oneTradeState).state.risk_manager = oneTradeState.risk_manager ∧
    ∀ p ∈ (execute_trade 0 ⟨true, some 100, 1000, false⟩ (sampleSignal "D")
        oneTradeState).state.active_trades,
      p ∈ oneTradeState.active_trades :=
  C8_order_failure_atomic 0 ⟨true, some 100, 1000, false⟩ (sampleSignal "D")
    oneTradeState (by rfl)

end QuantumTradeBot
